import Mathlib

/-!
Shallow embedding of the dual-store mnemonic synchronization and
wallet-derivation subsystem of `src/accountAbstraction.ts` (class
`HDWallet`), together with proofs about it.

External capabilities (the SEA encrypt/decrypt envelope, JSON
serialization, the BIP-32/39 wallet library, the random number
generator) are modelled as explicit function parameters; everything
else is translated line by line from the TypeScript source.
-/

namespace Shogun

/-- JS `String.prototype.startsWith`, modelled on the character list. -/
def strStartsWith (s p : String) : Bool :=
  p.data.isPrefixOf s.data

/-- JS `String.prototype.substring(n)` (drop the first `n` characters),
modelled on the character list. -/
def strDrop (s : String) (n : Nat) : String :=
  ⟨s.data.drop n⟩

/-- JS truthiness of a nullable string: `null`/`undefined` and `""` are falsy. -/
def truthy : Option String → Bool
  | none => false
  | some s => !s.isEmpty

/-- The external SEA + JSON envelope used by `encryptSensitiveData` /
`decryptSensitiveData`.  `enc key text` models
`JSON.stringify(await SEA.encrypt(text, key))`, with `none` standing for a
thrown error; `dec key stored` models
`await SEA.decrypt(JSON.parse(stored), key)`, with `none` standing for a
parse error, a decrypt failure, or a thrown error. -/
structure Crypto where
  enc : String → String → Option String
  dec : String → String → Option String

/-- `HDWallet.encryptSensitiveData` (src/accountAbstraction.ts:1392-1412):
try the SEA envelope; on failure fall back to storing the cleartext behind
the `unencrypted:` marker. -/
def encryptSensitiveData (c : Crypto) (key text : String) : String :=
  match c.enc key text with
  | some ct => ct
  | none => "unencrypted:" ++ text

/-- `HDWallet.decryptSensitiveData` (src/accountAbstraction.ts:1419-1447):
strip the `unencrypted:` marker if present, otherwise parse and decrypt,
returning `none` on any failure instead of throwing. -/
def decryptSensitiveData (c : Crypto) (key encryptedText : String) : Option String :=
  if strStartsWith encryptedText "unencrypted:" then
    some (strDrop encryptedText 12)
  else
    c.dec key encryptedText

/-- State of the `HDWallet` instance together with the two storage
backends touched by the mnemonic subsystem:
* `gunMnemonic` — the value stored at `user.get("master_mnemonic")`;
* `localMnemonic` — the value at `localStorage["shogun_master_mnemonic_<id>"]`;
* `authed` — whether `gun.user().is` is present;
* `userSea` — the key material `user._.sea` (`none` forces the fallback key);
* `storageId` — result of `getStorageUserIdentifier()`;
* `walletPaths` — the in-memory `this.walletPaths` registry;
* `testEnv` — whether `process.env.NODE_ENV === "test"`. -/
structure WState where
  gunMnemonic : Option String
  localMnemonic : Option String
  authed : Bool
  userSea : Option String
  storageId : String
  walletPaths : List (String × String × Nat)
  testEnv : Bool
  deriving Repr, DecidableEq

/-- The encryption key chosen by both `encryptSensitiveData` and
`decryptSensitiveData`: the user's SEA key material when available,
otherwise the deterministic fallback `shogun-encrypt-<id>-key`. -/
def encKey (s : WState) : String :=
  match s.userSea with
  | some k => k
  | none => "shogun-encrypt-" ++ s.storageId ++ "-key"

/-- The localStorage phase of `getUserMasterMnemonic`
(src/accountAbstraction.ts:1493-1523): read the local cache, decrypt it,
and on success opportunistically `put` the *decrypted* value to GunDB
when the user is authenticated. -/
def localMnemonicPhase (c : Crypto) (s : WState) : Option String × WState :=
  match s.localMnemonic with
  | none => (none, s)
  | some e =>
    if e.isEmpty then (none, s)
    else
      match decryptSensitiveData c (encKey s) e with
      | none => (none, s)
      | some d =>
        if !d.isEmpty && s.authed then
          (some d, { s with gunMnemonic := some d })
        else
          (some d, s)

/-- `HDWallet.getUserMasterMnemonic` (src/accountAbstraction.ts:1452-1528).
`timedOut` models the 5-second timeout racing the GunDB `.once` callback;
when the GunDB read yields a truthy value its decryption result is
returned directly (even when decryption fails), otherwise the
localStorage phase runs. -/
def getUserMasterMnemonic (c : Crypto) (timedOut : Bool) (s : WState) :
    Option String × WState :=
  if s.authed then
    match (if timedOut then none else s.gunMnemonic) with
    | some g =>
      if g.isEmpty then localMnemonicPhase c s
      else (decryptSensitiveData c (encKey s) g, s)
    | none => localMnemonicPhase c s
  else
    localMnemonicPhase c s

/-- `HDWallet.saveUserMasterMnemonic` (src/accountAbstraction.ts:1533-1565):
encrypt and `put` to GunDB when authenticated (short-circuited by the
test-environment simulation), then encrypt again and store in
localStorage. -/
def saveUserMasterMnemonic (c : Crypto) (mnemonic : String) (s : WState) : WState :=
  if s.authed then
    if s.testEnv then s
    else
      let s1 := { s with gunMnemonic := some (encryptSensitiveData c (encKey s) mnemonic) }
      { s1 with localMnemonic := some (encryptSensitiveData c (encKey s1) mnemonic) }
  else
    { s with localMnemonic := some (encryptSensitiveData c (encKey s) mnemonic) }

/-- `HDWallet.generateNewMnemonic` (src/accountAbstraction.ts:1215-1218):
`ethers.Wallet.createRandom()` is external, so its optional mnemonic
phrase (`wallet.mnemonic?.phrase`) is a parameter; the JS `||` falls back
to the development placeholder when the phrase is absent or empty. -/
def generateNewMnemonic (randomPhrase : Option String) : String :=
  if truthy randomPhrase then randomPhrase.getD ""
  else "test phrase for development"

/-- The standard derivation-path template `m/44'/60'/0'/0/{index}`. -/
def bip44Path (i : Nat) : String :=
  "m/44'/60'/0'/0/" ++ toString i

/-- `HDWallet.getStandardBIP44Addresses` (src/accountAbstraction.ts:1227-1238):
derive the address at `m/44'/60'/0'/0/i` for `i = 0 .. count-1`.  The
external BIP-32/39 derivation `ethers.HDNodeWallet.fromMnemonic(…, path).address`
is the parameter `deriveAddr`. -/
def getStandardBIP44Addresses (deriveAddr : String → String → String)
    (mnemonic : String) (count : Nat) : List String :=
  (List.range count).map (fun i => deriveAddr mnemonic (bip44Path i))

/-- Events of one `createWallet` run, in the order the source performs
them: reading the next index off the registry size (`alloc`), resolving
the master mnemonic (`resolve`), minting a fresh one (`mint`), persisting
it (`persist`), deriving the wallet (`derive`), and recording the path in
the registry (`record`). -/
inductive Ev where
  | alloc
  | resolve
  | mint
  | persist
  | derive
  | record
  deriving Repr, DecidableEq

/-- Result of `createWallet`: the thrown error or the returned wallet
info, the post state, and the event trace. -/
structure CWRes where
  res : Except String (String × String)
  state : WState
  trace : List Ev
  deriving Repr

/-- JS object property write: overwrite an existing key in place,
otherwise append. -/
def objSet (m : List (String × String × Nat)) (k : String) (v : String × Nat) :
    List (String × String × Nat) :=
  if m.any (fun p => p.1 = k) then
    m.map (fun p => if p.1 = k then (k, v) else p)
  else
    m ++ [(k, v)]

/-- JS object property read (`undefined` as `none`). -/
def objGet (m : List (String × String × Nat)) (k : String) : Option (String × Nat) :=
  (m.find? (fun p => p.1 = k)).map (·.2)

/-- `HDWallet.createWallet` (src/accountAbstraction.ts:1567-1601): check
authentication, read the next index off the registry size, resolve the
mnemonic (minting and saving a fresh one if absent), derive the wallet at
the standard path, record the path, and return address and path.
`deriveAddr` is the external BIP-32/39 derivation, `randomPhrase` the
external RNG outcome, `timedOut` the GunDB read timeout, `now` the value
of `Date.now()`. -/
def createWallet (c : Crypto) (deriveAddr : String → String → String)
    (randomPhrase : Option String) (timedOut : Bool) (now : Nat) (s : WState) : CWRes :=
  if !s.authed then
    { res := .error "User not authenticated", state := s, trace := [] }
  else
    let nextIndex := s.walletPaths.length
    let path := bip44Path nextIndex
    let (mn?, s1) := getUserMasterMnemonic c timedOut s
    let (mnemonic, s2, minted) :=
      if truthy mn? then (mn?.getD "", s1, false)
      else
        let m := generateNewMnemonic randomPhrase
        (m, saveUserMasterMnemonic c m s1, true)
    let address := deriveAddr mnemonic path
    let s3 := { s2 with walletPaths := objSet s2.walletPaths address (path, now) }
    { res := .ok (address, path)
    , state := s3
    , trace := [.alloc, .resolve] ++ (if minted then [.mint, .persist] else []) ++ [.derive, .record] }

/-- `HDWallet.loadWallets` (src/accountAbstraction.ts:1603-1621): resolve
the mnemonic; when it is absent return the empty list, otherwise derive a
wallet for every registry entry. -/
def loadWallets (c : Crypto) (deriveAddr : String → String → String)
    (timedOut : Bool) (s : WState) : List (String × String) × WState :=
  let (mn?, s1) := getUserMasterMnemonic c timedOut s
  if !truthy mn? then ([], s1)
  else
    (s1.walletPaths.map (fun p => (deriveAddr (mn?.getD "") p.2.1, p.2.1)), s1)

/-- One entry of the GunDB `wallet_paths` node: the optional `path` and
`created` fields of the stored object. -/
structure GunPathData where
  path : Option String
  created : Option Nat
  deriving Repr, DecidableEq

/-- The `data.created || Date.now()` default: JS `||` also replaces `0`. -/
def createdOrNow (created : Option Nat) (now : Nat) : Nat :=
  match created with
  | some c => if c = 0 then now else c
  | none => now

/-- Body of `HDWallet.loadWalletPathsFromGun`
(src/accountAbstraction.ts:988-1028) once data arrived: skip the GunDB
metadata key `"_"` and every entry without a truthy `path`, and store
`{path, created: data.created || Date.now()}` for the rest. -/
def loadGunEntries (now : Nat) (data : List (String × GunPathData))
    (m : List (String × String × Nat)) : List (String × String × Nat) :=
  data.foldl (fun acc kv =>
    if kv.1 ≠ "_" then
      match kv.2.path with
      | some p => if p.isEmpty then acc else objSet acc kv.1 (p, createdOrNow kv.2.created now)
      | none => acc
    else acc) m

/-- `HDWallet.loadWalletPathsFromGun` (src/accountAbstraction.ts:988-1028):
nothing is loaded when the user is unauthenticated or the node is empty. -/
def loadWalletPathsFromGun (authed : Bool) (now : Nat)
    (gunData : Option (List (String × GunPathData)))
    (m : List (String × String × Nat)) : List (String × String × Nat) :=
  if !authed then m
  else
    match gunData with
    | none => m
    | some data => loadGunEntries now data m

/-- `HDWallet.loadWalletPathsFromLocalStorage`
(src/accountAbstraction.ts:962-982): `localData` is the stored string
seen through the external `JSON.parse` (`none` = nothing stored,
`some none` = parse error, `some (some entries)` = parsed map).  An entry
is merged only when its address key is not already present. -/
def loadWalletPathsFromLocalStorage
    (localData : Option (Option (List (String × String × Nat))))
    (m : List (String × String × Nat)) : List (String × String × Nat) :=
  match localData with
  | none => m
  | some none => m
  | some (some entries) =>
    entries.foldl (fun acc kv =>
      if (objGet acc kv.1).isNone then objSet acc kv.1 kv.2 else acc) m

/-- The backends consulted by the registry rebuild. -/
structure RegBackends where
  authed : Bool
  gunData : Option (List (String × GunPathData))
  localData : Option (Option (List (String × String × Nat)))
  deriving Repr, DecidableEq

/-- `HDWallet.initializeWalletPaths` (src/accountAbstraction.ts:929-956):
reset the in-memory map, load from GunDB, then merge the localStorage
entries.  The backends are unchanged; only the in-memory map is rebuilt. -/
def initializeWalletPaths (b : RegBackends) (now : Nat)
    (_m : List (String × String × Nat)) : List (String × String × Nat) :=
  loadWalletPathsFromLocalStorage b.localData
    (loadWalletPathsFromGun b.authed now b.gunData [])

/-! ### Concrete instances used to evaluate the model -/

/-- The word count JS `s.split(' ').length` reports for a string: one
more than the number of space characters. -/
def wordCount (s : String) : Nat :=
  s.data.count ' ' + 1

/-- A concrete instantiation of the external SEA envelope, used to
evaluate the model on concrete scenarios: encryption tags the plaintext
with the key, decryption strips the tag. -/
def exCrypto : Crypto where
  enc := fun k t => some ("E|" ++ k ++ "|" ++ t)
  dec := fun k ct =>
    if strStartsWith ct ("E|" ++ k ++ "|") then some (strDrop ct (3 + k.length)) else none

/-- A concrete authenticated state with both backends empty. -/
def baseState : WState where
  gunMnemonic := none
  localMnemonic := none
  authed := true
  userSea := some "K"
  storageId := "pubid1234567"
  walletPaths := []
  testEnv := false

/-- A concrete 12-word phrase standing for the RNG outcome. -/
def stdMnemonic : String := "w1 w2 w3 w4 w5 w6 w7 w8 w9 w10 w11 w12"

/-- A concrete instantiation of the external BIP-32/39 derivation. -/
def exDerive : String → String → String := fun m p => "addr(" ++ m ++ "|" ++ p ++ ")"

/-- Backends with the address `a1` present on both sides, holding
different values, used to evaluate the registry rebuild on a tie. -/
def exBackends : RegBackends where
  authed := true
  gunData := some [("_", { path := none, created := none }), ("a1", { path := some "m/0", created := some 5 })]
  localData := some (some [("a1", ("m/9", 9)), ("a2", ("m/2", 2))])

/-! ### Helper lemmas -/

theorem strStartsWith_append (p s : String) : strStartsWith (p ++ s) p = true := by
  simp [strStartsWith, String.data_append, List.isPrefixOf_iff_prefix, List.prefix_append]

theorem strDrop_marker (s : String) : strDrop ("unencrypted:" ++ s) 12 = s := by
  show String.mk (("unencrypted:" ++ s).data.drop 12) = s
  rw [String.data_append]
  have h : ("unencrypted:" : String).data.length = 12 := rfl
  rw [← h, List.drop_left]

theorem find?_mapSet_ne (l : List (String × String × Nat)) (k k' : String) (v : String × Nat)
    (h : k' ≠ k) :
    (l.map (fun p => if p.1 = k' then (k', v) else p)).find? (fun p => decide (p.1 = k))
      = l.find? (fun p => decide (p.1 = k)) := by
  induction l with
  | nil => rfl
  | cons a l ih =>
    simp only [List.map_cons, List.find?_cons]
    by_cases ha : a.1 = k'
    · simp [ha, h, ih]
    · simp only [ha, if_false]
      by_cases hk : a.1 = k
      · simp [hk]
      · simp [hk, ih]

theorem find?_append_single_ne (l : List (String × String × Nat)) (k k' : String)
    (v : String × Nat) (h : k' ≠ k) :
    (l ++ [(k', v)]).find? (fun p => decide (p.1 = k)) = l.find? (fun p => decide (p.1 = k)) := by
  rw [List.find?_append]
  simp [h]

theorem objGet_objSet_ne (m : List (String × String × Nat)) (k k' : String) (v : String × Nat)
    (h : k' ≠ k) : objGet (objSet m k' v) k = objGet m k := by
  unfold objGet objSet
  split
  · rw [find?_mapSet_ne m k k' v h]
  · rw [find?_append_single_ne m k k' v h]

theorem localMerge_preserves (entries : List (String × String × Nat))
    (m : List (String × String × Nat)) (k : String)
    (h : (objGet m k).isSome = true) :
    objGet (entries.foldl (fun acc kv =>
        if (objGet acc kv.1).isNone then objSet acc kv.1 kv.2 else acc) m) k
      = objGet m k := by
  induction entries generalizing m with
  | nil => rfl
  | cons kv entries ih =>
    simp only [List.foldl_cons]
    by_cases hc : (objGet m kv.1).isNone = true
    · have hkk : kv.1 ≠ k := by
        intro he
        rw [he, Option.isNone_iff_eq_none] at hc
        rw [hc] at h
        exact Bool.false_ne_true h
      rw [if_pos hc,
        ih (objSet m kv.1 kv.2) (by rw [objGet_objSet_ne m k kv.1 kv.2 hkk]; exact h),
        objGet_objSet_ne m k kv.1 kv.2 hkk]
    · rw [if_neg hc]
      exact ih m h

theorem localMnemonicPhase_flags (c : Crypto) (s : WState) :
    (localMnemonicPhase c s).2.authed = s.authed ∧
    (localMnemonicPhase c s).2.testEnv = s.testEnv ∧
    (localMnemonicPhase c s).2.localMnemonic = s.localMnemonic := by
  unfold localMnemonicPhase
  repeat' split
  all_goals simp_all

theorem getUserMasterMnemonic_flags (c : Crypto) (t : Bool) (s : WState) :
    (getUserMasterMnemonic c t s).2.authed = s.authed ∧
    (getUserMasterMnemonic c t s).2.testEnv = s.testEnv ∧
    (getUserMasterMnemonic c t s).2.localMnemonic = s.localMnemonic := by
  unfold getUserMasterMnemonic
  repeat' split
  all_goals first
    | exact ⟨rfl, rfl, rfl⟩
    | exact localMnemonicPhase_flags c s

theorem localMnemonicPhase_backend (c : Crypto) (s : WState)
    (h : truthy (localMnemonicPhase c s).1 = true) :
    (localMnemonicPhase c s).2.localMnemonic.isSome = true := by
  revert h
  unfold localMnemonicPhase
  repeat' split
  all_goals intro h
  all_goals simp_all [truthy]

theorem getUserMasterMnemonic_backend (c : Crypto) (t : Bool) (s : WState)
    (h : truthy (getUserMasterMnemonic c t s).1 = true) :
    (getUserMasterMnemonic c t s).2.gunMnemonic.isSome = true ∨
    (getUserMasterMnemonic c t s).2.localMnemonic.isSome = true := by
  revert h
  unfold getUserMasterMnemonic
  repeat' split
  all_goals intro h
  all_goals first
    | (right; exact localMnemonicPhase_backend c s h)
    | (left; cases t <;> simp_all)

theorem saveUserMasterMnemonic_gun (c : Crypto) (m : String) (s : WState)
    (ha : s.authed = true) (ht : s.testEnv = false) :
    (saveUserMasterMnemonic c m s).gunMnemonic.isSome = true := by
  unfold saveUserMasterMnemonic
  simp [ha, ht]

/-! ### The claims -/

/-- C10: with a fixed key context, decrypting an encrypted value returns
the original string, both on the normal SEA path (assuming the external
envelope round-trips and its ciphertexts do not carry the cleartext
marker) and on the degraded path where encryption failed and the value
was stored as `unencrypted:` plus the cleartext. -/
theorem C10_encrypt_decrypt_roundtrip (c : Crypto) (key s : String)
    (hdec : ∀ ct, c.enc key s = some ct → c.dec key ct = some s)
    (hmark : ∀ ct, c.enc key s = some ct → strStartsWith ct "unencrypted:" = false) :
    decryptSensitiveData c key (encryptSensitiveData c key s) = some s := by
  unfold encryptSensitiveData decryptSensitiveData
  cases h : c.enc key s with
  | none => simp [strStartsWith_append, strDrop_marker]
  | some ct => simp [hmark ct h, hdec ct h]

theorem C10_encrypt_decrypt_roundtrip_witness :
    decryptSensitiveData exCrypto "K" (encryptSensitiveData exCrypto "K" "alpha bravo")
      = some "alpha bravo" :=
  C10_encrypt_decrypt_roundtrip exCrypto "K" "alpha bravo"
    (fun ct h => by
      obtain rfl : ("E|K|alpha bravo" : String) = ct := Option.some.inj h
      decide)
    (fun ct h => by
      obtain rfl : ("E|K|alpha bravo" : String) = ct := Option.some.inj h
      decide)

/-- C1 fails on the code: with the replica store holding an encrypted
mnemonic and the local cache empty, `getUserMasterMnemonic` returns the
decrypted phrase but leaves the local cache empty — the replica-to-cache
repair direction does not exist in the source. -/
theorem C1_counterexample :
    (getUserMasterMnemonic exCrypto false
        { baseState with gunMnemonic := some (encryptSensitiveData exCrypto "K" "alpha one") }).1
      = some "alpha one" ∧
    (getUserMasterMnemonic exCrypto false
        { baseState with gunMnemonic := some (encryptSensitiveData exCrypto "K" "alpha one") }).2.localMnemonic
      = none := by
  decide

/-- C1 (amended): only the cache-to-replica direction is repaired.  When
the replica store yields nothing and the local cache decrypts under an
authenticated identity, the decrypted value is written to the replica
store before being returned; a successful replica-store read returns the
decrypted phrase with the state (in particular the local cache)
unchanged. -/
theorem C1_amended_sync (c : Crypto) (s : WState) (lct d : String) :
    (s.authed = true → s.gunMnemonic = none → s.localMnemonic = some lct →
      lct.isEmpty = false →
      decryptSensitiveData c (encKey s) lct = some d → d.isEmpty = false →
      getUserMasterMnemonic c false s = (some d, { s with gunMnemonic := some d })) ∧
    (∀ g dg, s.authed = true → s.gunMnemonic = some g → g.isEmpty = false →
      decryptSensitiveData c (encKey s) g = some dg →
      getUserMasterMnemonic c false s = (some dg, s)) := by
  constructor
  · intro ha hg hl hle hd hde
    unfold getUserMasterMnemonic localMnemonicPhase
    simp [ha, hg, hl, hle, hd, hde, truthy]
  · intro g dg ha hg hge hd
    unfold getUserMasterMnemonic
    simp [ha, hg, hge, truthy, hd]

theorem C1_amended_sync_witness :
    getUserMasterMnemonic exCrypto false
        { baseState with localMnemonic := some (encryptSensitiveData exCrypto "K" "delta four") }
      = (some "delta four",
         { baseState with
             localMnemonic := some (encryptSensitiveData exCrypto "K" "delta four")
             gunMnemonic := some "delta four" }) :=
  (C1_amended_sync exCrypto
      { baseState with localMnemonic := some (encryptSensitiveData exCrypto "K" "delta four") }
      (encryptSensitiveData exCrypto "K" "delta four") "delta four").1
    rfl rfl rfl (by decide) (by decide) (by decide)

/-- C2's fallback half fails on the code: with the replica store holding
an undecryptable ciphertext and the local cache holding a perfectly
decryptable one, `getUserMasterMnemonic` returns `none` — the decrypt
result of the replica value is returned directly, so the localStorage
fallback (announced by the source's own unreachable catch block) never
runs. -/
theorem C2_decrypt_failure_blocks_fallback :
    (getUserMasterMnemonic exCrypto false
        { baseState with
            gunMnemonic := some "garbage"
            localMnemonic := some (encryptSensitiveData exCrypto "K" "bravo two") }).1
      = none ∧
    decryptSensitiveData exCrypto (encKey baseState) "garbage" = none ∧
    decryptSensitiveData exCrypto (encKey baseState)
        (encryptSensitiveData exCrypto "K" "bravo two") = some "bravo two" := by
  decide

/-- C3 fails on the code: the opportunistic sync of a locally-found
mnemonic puts the *decrypted plaintext* under the replica key
`master_mnemonic`, not an encrypted envelope — the stored value is the
phrase itself, and it is not even decryptable afterwards. -/
theorem C3_sync_stores_plaintext :
    (getUserMasterMnemonic exCrypto false
        { baseState with localMnemonic := some (encryptSensitiveData exCrypto "K" "charlie three") }).2.gunMnemonic
      = some "charlie three" ∧
    decryptSensitiveData exCrypto (encKey baseState) "charlie three" = none := by
  decide

/-- C5: calling `createWallet` without an authenticated identity rejects
with the authentication error, leaves the state untouched (no mnemonic
minted, no backend written, no wallet path recorded) and performs none of
the creation steps. -/
theorem C5_unauthenticated_rejects (c : Crypto) (d : String → String → String)
    (rp : Option String) (t : Bool) (now : Nat) (s : WState) (h : s.authed = false) :
    createWallet c d rp t now s
      = { res := .error "User not authenticated", state := s, trace := [] } := by
  unfold createWallet
  simp [h]

theorem C5_unauthenticated_rejects_witness :
    createWallet exCrypto exDerive (some stdMnemonic) false 7 { baseState with authed := false }
      = { res := .error "User not authenticated"
        , state := { baseState with authed := false }
        , trace := [] } :=
  C5_unauthenticated_rejects exCrypto exDerive (some stdMnemonic) false 7
    { baseState with authed := false } rfl

/-- C6: when neither backend holds a master mnemonic, `loadWallets`
returns the empty list rather than throwing, and the state is unchanged:
no mnemonic is minted and no backend is written. -/
theorem C6_loadWallets_empty_backends (c : Crypto) (d : String → String → String)
    (t : Bool) (s : WState)
    (hg : s.gunMnemonic = none) (hl : s.localMnemonic = none) :
    loadWallets c d t s = ([], s) := by
  unfold loadWallets getUserMasterMnemonic localMnemonicPhase
  cases h : s.authed <;> cases t <;> simp [hg, hl, truthy]

theorem C6_loadWallets_empty_backends_witness :
    loadWallets exCrypto exDerive false baseState = ([], baseState) :=
  C6_loadWallets_empty_backends exCrypto exDerive false baseState rfl rfl

/-- C7: `getStandardBIP44Addresses mnemonic n` returns exactly `n`
addresses, the `i`-th being the external derivation's address at path
`m/44'/60'/0'/0/i`; under the BIP-32/39 guarantee that distinct indices
of the path family derive distinct addresses, the list has no
duplicates; and, being pure, repeated calls return the identical list. -/
theorem C7_standard_bip44_addresses (d : String → String → String) (m : String) (n : Nat)
    (hinj : ∀ i < n, ∀ j < n, d m (bip44Path i) = d m (bip44Path j) → i = j) :
    (getStandardBIP44Addresses d m n).length = n ∧
    (∀ i, i < n → (getStandardBIP44Addresses d m n).get? i = some (d m (bip44Path i))) ∧
    (getStandardBIP44Addresses d m n).Nodup ∧
    getStandardBIP44Addresses d m n = getStandardBIP44Addresses d m n := by
  refine ⟨by simp [getStandardBIP44Addresses], ?_, ?_, rfl⟩
  · intro i hi
    simp only [getStandardBIP44Addresses, List.get?_eq_getElem?, List.getElem?_map]
    rw [List.getElem?_range hi]
    rfl
  · refine List.Nodup.map_on ?_ (List.nodup_range n)
    intro i hi j hj hij
    exact hinj i (List.mem_range.mp hi) j (List.mem_range.mp hj) hij

theorem C7_standard_bip44_addresses_witness :
    (getStandardBIP44Addresses (fun _ p => p) stdMnemonic 3).length = 3 ∧
    (∀ i, i < 3 → (getStandardBIP44Addresses (fun _ p => p) stdMnemonic 3).get? i
        = some ((fun (_ : String) p => p) stdMnemonic (bip44Path i))) ∧
    (getStandardBIP44Addresses (fun _ p => p) stdMnemonic 3).Nodup ∧
    getStandardBIP44Addresses (fun _ p => p) stdMnemonic 3
      = getStandardBIP44Addresses (fun _ p => p) stdMnemonic 3 :=
  C7_standard_bip44_addresses (fun _ p => p) stdMnemonic 3 (by decide)

/-- C8: `generateNewMnemonic` returns exactly the phrase carried by the
freshly created random wallet; since the external wallet library attaches
a 12-word BIP-39 phrase to every random wallet, the returned phrase is
that 12-word phrase (word count stated concretely, checksum validity
inherited from returning the library's phrase verbatim). -/
theorem C8_generate_new_mnemonic (p : String)
    (hne : p.isEmpty = false) (h12 : wordCount p = 12) :
    generateNewMnemonic (some p) = p ∧
    wordCount (generateNewMnemonic (some p)) = 12 := by
  unfold generateNewMnemonic
  simp [truthy, hne, h12]

theorem C8_generate_new_mnemonic_witness :
    generateNewMnemonic (some stdMnemonic) = stdMnemonic ∧
    wordCount (generateNewMnemonic (some stdMnemonic)) = 12 :=
  C8_generate_new_mnemonic stdMnemonic (by decide) (by decide)

/-- C9: the registry rebuild merges a local-cache entry into the
in-memory map only when its address key is absent, so any key loaded from
the replica store keeps its replica value on ties; and since the rebuild
resets the map before loading, running it twice from the same backend
contents yields the same map as running it once. -/
theorem C9_rebuild_replica_wins_idempotent (b : RegBackends) (now : Nat)
    (m0 m1 : List (String × String × Nat)) (k : String) (e : String × Nat)
    (hg : objGet (loadWalletPathsFromGun b.authed now b.gunData []) k = some e) :
    objGet (initializeWalletPaths b now m0) k = some e ∧
    initializeWalletPaths b now (initializeWalletPaths b now m1)
      = initializeWalletPaths b now m0 := by
  refine ⟨?_, rfl⟩
  unfold initializeWalletPaths loadWalletPathsFromLocalStorage
  rcases hld : b.localData with _ | ld
  · exact hg
  · rcases ld with _ | entries
    · exact hg
    · rw [localMerge_preserves entries _ k (by rw [hg]; rfl)]
      exact hg

theorem C9_rebuild_replica_wins_idempotent_witness :
    objGet (initializeWalletPaths exBackends 100 []) "a1" = some ("m/0", 5) ∧
    initializeWalletPaths exBackends 100 (initializeWalletPaths exBackends 100 [])
      = initializeWalletPaths exBackends 100 [] :=
  C9_rebuild_replica_wins_idempotent exBackends 100 [] [] "a1" ("m/0", 5) (by decide)

/-- C4 fails on the code as stated, in both halves.  First, in
`createWallet` the next index is read off the registry size (path
allocation) *before* the mnemonic is resolved — here is a concrete run
whose trace performs `alloc` strictly before `resolve`, while the claim
requires resolution strictly first.  Second, under the test-environment
shim of `saveUserMasterMnemonic` a concrete run returns a wallet with its
path recorded while neither backend holds the mnemonic, so the
durability half does not hold over every execution either. -/
theorem C4_counterexample :
    ((createWallet exCrypto exDerive (some stdMnemonic) false 7 baseState).trace
        = [Ev.alloc, Ev.resolve, Ev.mint, Ev.persist, Ev.derive, Ev.record] ∧
      (createWallet exCrypto exDerive (some stdMnemonic) false 7 baseState).trace.indexOf Ev.alloc
        < (createWallet exCrypto exDerive (some stdMnemonic) false 7 baseState).trace.indexOf Ev.resolve) ∧
    ((createWallet exCrypto exDerive (some stdMnemonic) false 7
          { baseState with testEnv := true }).res.isOk = true ∧
      (createWallet exCrypto exDerive (some stdMnemonic) false 7
          { baseState with testEnv := true }).state.walletPaths ≠ [] ∧
      (createWallet exCrypto exDerive (some stdMnemonic) false 7
          { baseState with testEnv := true }).state.gunMnemonic = none ∧
      (createWallet exCrypto exDerive (some stdMnemonic) false 7
          { baseState with testEnv := true }).state.localMnemonic = none) := by
  decide

/-- C4 (amended): in every execution of `createWallet` that passes the
authentication check, path allocation strictly precedes mnemonic
resolution, which strictly precedes derivation, which strictly precedes
recording the path, and the call succeeds; outside the test-environment
shim, the wallet is returned (its path recorded) only with the mnemonic
durably known to at least one backend. -/
theorem C4_amended_order (c : Crypto) (d : String → String → String)
    (rp : Option String) (t : Bool) (now : Nat) (s : WState)
    (ha : s.authed = true) :
    ((createWallet c d rp t now s).trace.indexOf Ev.alloc
        < (createWallet c d rp t now s).trace.indexOf Ev.resolve ∧
      (createWallet c d rp t now s).trace.indexOf Ev.resolve
        < (createWallet c d rp t now s).trace.indexOf Ev.derive ∧
      (createWallet c d rp t now s).trace.indexOf Ev.derive
        < (createWallet c d rp t now s).trace.indexOf Ev.record) ∧
    (createWallet c d rp t now s).res.isOk = true ∧
    (s.testEnv = false →
      (createWallet c d rp t now s).state.gunMnemonic.isSome = true ∨
      (createWallet c d rp t now s).state.localMnemonic.isSome = true) := by
  have hflags := getUserMasterMnemonic_flags c t s
  unfold createWallet
  rcases hr : getUserMasterMnemonic c t s with ⟨mn, s1⟩
  rw [hr] at hflags
  by_cases hm : truthy mn = true
  · have hb := getUserMasterMnemonic_backend c t s (by rw [hr]; exact hm)
    rw [hr] at hb
    simp only [ha, Bool.not_true, Bool.false_eq_true, if_false, hm, if_true]
    refine ⟨by decide, rfl, fun _ => ?_⟩
    exact hb
  · simp only [ha, Bool.not_true, Bool.false_eq_true, if_false, hm, if_false]
    refine ⟨by decide, rfl, fun ht => ?_⟩
    left
    exact saveUserMasterMnemonic_gun c (generateNewMnemonic rp) s1
      (hflags.1.symm ▸ ha) (hflags.2.1.symm ▸ ht)

theorem C4_amended_order_witness :
    ((createWallet exCrypto exDerive (some stdMnemonic) false 7 baseState).trace.indexOf Ev.alloc
        < (createWallet exCrypto exDerive (some stdMnemonic) false 7 baseState).trace.indexOf Ev.resolve ∧
      (createWallet exCrypto exDerive (some stdMnemonic) false 7 baseState).trace.indexOf Ev.resolve
        < (createWallet exCrypto exDerive (some stdMnemonic) false 7 baseState).trace.indexOf Ev.derive ∧
      (createWallet exCrypto exDerive (some stdMnemonic) false 7 baseState).trace.indexOf Ev.derive
        < (createWallet exCrypto exDerive (some stdMnemonic) false 7 baseState).trace.indexOf Ev.record) ∧
    (createWallet exCrypto exDerive (some stdMnemonic) false 7 baseState).res.isOk = true ∧
    ((createWallet exCrypto exDerive (some stdMnemonic) false 7 baseState).state.gunMnemonic.isSome = true ∨
      (createWallet exCrypto exDerive (some stdMnemonic) false 7 baseState).state.localMnemonic.isSome = true) :=
  ⟨(C4_amended_order exCrypto exDerive (some stdMnemonic) false 7 baseState rfl).1,
   (C4_amended_order exCrypto exDerive (some stdMnemonic) false 7 baseState rfl).2.1,
   (C4_amended_order exCrypto exDerive (some stdMnemonic) false 7 baseState rfl).2.2 rfl⟩

end Shogun
